import Mathlib

/-!
Verification of the LinkedIn MCP server's JSON-RPC dispatch core.

This file gives a shallow embedding of the two request-handling
implementations of the repository:

* the `MCPServer` class of `src/public/mcpServer.js` (tool registry,
  `handleToolsList`, `handleToolsCall`, `handleInitialize`, and the four
  mock tool executors), and
* the service worker of `src/public/sw.js`: the protocol dispatcher
  `handleMCPRequest` together with the simplified in-worker server
  returned by `createMCPServerInstance`.

JavaScript values reachable from the dispatcher are modelled by the
inductive `JsonVal` (plain JSON values plus `undefined`); objects are
insertion-ordered association lists, and property lookup on them is
own-key lookup — JSON-decoded objects carry no interesting inherited
properties.  The one place where prototype inheritance is observable,
the registry guard `!this.tools[toolName]`, is modelled separately with
the own keys plus the inherited `Object.prototype` keys.  Machine-level
artifacts that no claim depends on are noted at the definition they
would affect.
Environment effects are passed explicitly: `Date.now()` becomes a `now`
parameter and `new Date().toISOString()` a `nowISO` parameter.
Exceptions are modelled with `Except String`, the `String` being the
thrown error's `.message` (messages follow V8's wording).
-/

namespace LinkedInMCP

/-- JavaScript/JSON values as seen by the dispatcher: the six JSON value
forms plus `undefined`, which property access yields for a
missing key.  Numbers are restricted to integers: every numeric literal
of the program and every numeric argument used by a claim is an
integer. -/
inductive JsonVal where
  | null : JsonVal
  | undefined : JsonVal
  | bool : Bool → JsonVal
  | num : Int → JsonVal
  | str : String → JsonVal
  | arr : List JsonVal → JsonVal
  | obj : List (String × JsonVal) → JsonVal
deriving Repr

/-- JavaScript truthiness of a value (`Boolean(v)`); `undefined`,
`null`, `0`, `""` and `false` are falsy, arrays and objects truthy. -/
def truthy : JsonVal → Bool
  | .null => false
  | .undefined => false
  | .bool b => b
  | .num n => n != 0
  | .str s => s != ""
  | .arr _ => true
  | .obj _ => true

/-- Is the value `undefined`?  (`v !== undefined` is `!isUndefined v`.) -/
def isUndefined : JsonVal → Bool
  | .undefined => true
  | _ => false

/-- Is the value `null` or `undefined`?  Property access on such a
receiver throws a `TypeError` in JavaScript. -/
def isNullish : JsonVal → Bool
  | .null => true
  | .undefined => true
  | _ => false

/-- Property access `v[k]`: own-key lookup on objects, `undefined` on
missing keys and on primitive receivers (JavaScript boxes primitives,
whose boxes carry none of the keys used here).  It is only used on
receivers that are not `null`/`undefined`, where access would throw;
the dispatcher guards those cases separately. -/
def getField : JsonVal → String → JsonVal
  | .obj fs, k =>
    match fs.lookup k with
    | some v => v
    | none => .undefined
  | _, _ => .undefined

/-- JavaScript strict equality `===` on the values that occur here.
Two distinct array/object literals are never reference-equal, so the
composite cases are `false` (no aliasing arises in the program). -/
def jsEq : JsonVal → JsonVal → Bool
  | .null, .null => true
  | .undefined, .undefined => true
  | .bool a, .bool b => a == b
  | .num a, .num b => a == b
  | .str a, .str b => a == b
  | _, _ => false

mutual

/-- JavaScript string coercion `String(v)`, as used by the `+` string
concatenations of the source (an array joins its coerced elements with
commas, an object prints as `[object Object]`). -/
def jsStr : JsonVal → String
  | .null => "null"
  | .undefined => "undefined"
  | .bool b => if b then "true" else "false"
  | .num n => toString n
  | .str s => s
  | .arr xs => String.intercalate "," (jsStrList xs)
  | .obj _ => "[object Object]"

/-- The elements of an array as `Array.prototype.join` coerces them:
a `null` or `undefined` element renders as the empty string inside a
join, every other element by `String(·)`. -/
def jsStrList : List JsonVal → List String
  | [] => []
  | .null :: rest => "" :: jsStrList rest
  | .undefined :: rest => "" :: jsStrList rest
  | v :: rest => jsStr v :: jsStrList rest

end

/-- A run of `n` spaces, for the pretty printer's indentation. -/
def spaces (n : Nat) : String := String.mk (List.replicate n ' ')

/-- JSON string escaping as performed by `JSON.stringify` for the
characters that can occur in the program's data (quote, backslash and
the common control characters; other control characters, which never
occur here, would use a `\u00XX` escape). -/
def jsonEscape (s : String) : String :=
  s.foldl
    (fun acc c =>
      if c == '"' then acc ++ "\\\""
      else if c == '\\' then acc ++ "\\\\"
      else if c == '\n' then acc ++ "\\n"
      else if c == '\r' then acc ++ "\\r"
      else if c == '\t' then acc ++ "\\t"
      else acc.push c)
    ""

mutual

/-- `JSON.stringify(v, null, 2)` at nesting depth `d`: two-space
indentation per level, object entries with `undefined` values dropped,
`undefined` array elements printed as `null` (a top-level `undefined`
never occurs: every serialized value in the program is an object). -/
def stringifyAt : Nat → JsonVal → String
  | _, .null => "null"
  | _, .undefined => "null"
  | _, .bool b => if b then "true" else "false"
  | _, .num n => toString n
  | _, .str s => "\"" ++ jsonEscape s ++ "\""
  | d, .arr xs =>
    match xs with
    | [] => "[]"
    | _ =>
      "[\n" ++ String.intercalate ",\n" (stringifyItems (d + 1) xs) ++
        "\n" ++ spaces (2 * d) ++ "]"
  | d, .obj fs =>
    match stringifyFields (d + 1) fs with
    | [] => "\x7b\x7d"
    | items =>
      "\x7b\n" ++ String.intercalate ",\n" items ++
        "\n" ++ spaces (2 * d) ++ "\x7d"

/-- The indented item lines of an array being pretty printed. -/
def stringifyItems : Nat → List JsonVal → List String
  | _, [] => []
  | d, v :: rest => (spaces (2 * d) ++ stringifyAt d v) :: stringifyItems d rest

/-- The indented `"key": value` lines of an object being pretty
printed; entries whose value is `undefined` are dropped, as
`JSON.stringify` does. -/
def stringifyFields : Nat → List (String × JsonVal) → List String
  | _, [] => []
  | d, (k, v) :: rest =>
    if isUndefined v then stringifyFields d rest
    else
      (spaces (2 * d) ++ "\"" ++ jsonEscape k ++ "\": " ++ stringifyAt d v) ::
        stringifyFields d rest

end

/-- `JSON.stringify(v, null, 2)`, the serialization used at
`mcpServer.js` line 149 and `sw.js` line 321. -/
def jsonStringify2 (v : JsonVal) : String := stringifyAt 0 v

/-- `s.replace(/\s+/g, "-")` after lowercasing, as in
`searchOrganizations`: each maximal run of whitespace characters is
replaced by a single dash.  (`Char.isWhitespace` stands in for the
regex class `\s`; they agree on the ASCII whitespace that can occur.) -/
def collapseWs (s : String) : String :=
  (s.toList.foldl
    (fun (acc : String × Bool) c =>
      if c.isWhitespace then (if acc.2 then acc else (acc.1.push '-', true))
      else (acc.1.push c, false))
    ("", false)).1

/-- A JSON-RPC error object `code / message / data?`. -/
structure JsonErr where
  code : Int
  message : String
  data : Option JsonVal
deriving Repr

/-- A JSON-RPC response envelope as the program builds it; a field the
program does not set is `none` (absent after serialization). -/
structure MCPResponse where
  jsonrpc : String
  result : Option JsonVal
  error : Option JsonErr
  id : Option JsonVal
deriving Repr

/-- The argument defaulting `params.arguments || ` empty-object shared
verbatim by `mcpServer.js` line 110 and `sw.js` line 262: a falsy
`arguments` value (absent, `null`, `0`, `""`, `false`) is replaced by
the empty mapping. -/
def argsDefault (params : JsonVal) : JsonVal :=
  let a := getField params "arguments"
  if truthy a then a else .obj []

/-- The success wrapping shared verbatim by `mcpServer.js` lines
144-152 and `sw.js` lines 316-324: the executor's structured result is
serialized with `JSON.stringify(result, null, 2)` into the single
element of `result.content`. -/
def contentWrap (result : JsonVal) : JsonVal :=
  .obj [("content",
    .arr [.obj [("type", .str "text"), ("text", .str (jsonStringify2 result))]])]

namespace MCPServer

/-! The `MCPServer` class of `src/public/mcpServer.js`. -/

/-- The registry keys of `initializeTools`, in insertion order
(`Object.keys(this.tools)`). -/
def toolNames : List String :=
  ["get_profile", "create_post", "search_organizations", "get_organizations"]

/-- The `get_profile` tool descriptor (`mcpServer.js` lines 25-33). -/
def getProfileTool : JsonVal :=
  .obj [
    ("name", .str "get_profile"),
    ("description", .str "Get LinkedIn profile information for the current user"),
    ("inputSchema", .obj [
      ("type", .str "object"),
      ("properties", .obj []),
      ("required", .arr [])])]

/-- The `create_post` tool descriptor (`mcpServer.js` lines 34-53). -/
def createPostTool : JsonVal :=
  .obj [
    ("name", .str "create_post"),
    ("description", .str "Create a new LinkedIn post"),
    ("inputSchema", .obj [
      ("type", .str "object"),
      ("properties", .obj [
        ("text", .obj [
          ("type", .str "string"),
          ("description", .str "The text content of the post")]),
        ("visibility", .obj [
          ("type", .str "string"),
          ("description", .str "Post visibility (PUBLIC or CONNECTIONS)"),
          ("enum", .arr [.str "PUBLIC", .str "CONNECTIONS"]),
          ("default", .str "PUBLIC")])]),
      ("required", .arr [.str "text"])])]

/-- The `search_organizations` tool descriptor (`mcpServer.js` lines
54-74). -/
def searchOrganizationsTool : JsonVal :=
  .obj [
    ("name", .str "search_organizations"),
    ("description", .str "Search for LinkedIn organizations"),
    ("inputSchema", .obj [
      ("type", .str "object"),
      ("properties", .obj [
        ("query", .obj [
          ("type", .str "string"),
          ("description", .str "Search query for organizations")]),
        ("limit", .obj [
          ("type", .str "number"),
          ("description", .str "Maximum number of results to return"),
          ("default", .num 10),
          ("minimum", .num 1),
          ("maximum", .num 50)])]),
      ("required", .arr [.str "query"])])]

/-- The `get_organizations` tool descriptor (`mcpServer.js` lines
75-89). -/
def getOrganizationsTool : JsonVal :=
  .obj [
    ("name", .str "get_organizations"),
    ("description", .str "Get organizations the user has access to"),
    ("inputSchema", .obj [
      ("type", .str "object"),
      ("properties", .obj [
        ("role", .obj [
          ("type", .str "string"),
          ("description", .str "Filter by role (ADMINISTRATOR, MEMBER, etc.)"),
          ("enum", .arr [.str "ADMINISTRATOR", .str "MEMBER", .str "CONTRIBUTOR"])])]),
      ("required", .arr [])])]

/-- `initializeTools()`: the tool registry as an insertion-ordered map
from tool name to descriptor (`mcpServer.js` lines 23-91). -/
def initializeTools : List (String × JsonVal) :=
  [("get_profile", getProfileTool),
   ("create_post", createPostTool),
   ("search_organizations", searchOrganizationsTool),
   ("get_organizations", getOrganizationsTool)]

/-- `handleToolsList()` (`mcpServer.js` lines 96-103):
`result.tools = Object.values(this.tools)`, the descriptors in registry
insertion order. -/
def handleToolsList : MCPResponse :=
  ⟨"2.0", some (.obj [("tools", .arr (initializeTools.map Prod.snd))]), none, none⟩

/-- `handleInitialize(params)` (`mcpServer.js` lines 171-187); the
`params` argument is ignored entirely. -/
def handleInitializeReq : MCPResponse :=
  ⟨"2.0",
    some (.obj [
      ("serverInfo", .obj [
        ("name", .str "linkedin-mcp-server"),
        ("version", .str "1.0.0"),
        ("protocol", .str "MCP 1.0")]),
      ("capabilities", .obj [
        ("tools", .obj [("listChanged", .bool false)]),
        ("resources", .obj [
          ("subscribe", .bool false),
          ("listChanged", .bool false)])])]),
    none, none⟩

/-- `getProfile()` (`mcpServer.js` lines 191-206): a fixed mock
profile record. -/
def getProfile : JsonVal :=
  .obj [
    ("status", .str "demo"),
    ("message", .str "This is a demo response. Connect your LinkedIn app for real data."),
    ("data", .obj [
      ("id", .str "sample-user-id"),
      ("firstName", .obj [("localized", .obj [("en_US", .str "Demo")])]),
      ("lastName", .obj [("localized", .obj [("en_US", .str "User")])]),
      ("headline", .obj [("localized", .obj [("en_US", .str "Professional using MCP Server")])]),
      ("industry", .obj [("localized", .obj [("en_US", .str "Technology")])]),
      ("location", .obj [("localized", .obj [("en_US", .str "San Francisco, CA")])]),
      ("profilePicture", .null),
      ("publicProfileUrl", .str "https://linkedin.com/in/demo-user")])]

/-- `createPost(text, visibility = "PUBLIC")` (`mcpServer.js` lines
208-221).  `Date.now()` is the `now` parameter and
`new Date().toISOString()` the `nowISO` parameter. -/
def createPost (text visibility : JsonVal) (now : Int) (nowISO : String) : JsonVal :=
  let visibility := if isUndefined visibility then .str "PUBLIC" else visibility
  .obj [
    ("status", .str "success"),
    ("message", .str ("Post would be created with visibility: " ++ jsStr visibility)),
    ("data", .obj [
      ("text", text),
      ("id", .str ("demo-post-" ++ toString now)),
      ("status", .str "PUBLISHED"),
      ("visibility", visibility),
      ("createdAt", .str nowISO),
      ("author", .str "demo-user-id")])]

/-- The fixed industry lookup list of `searchOrganizations`
(`mcpServer.js` line 230). -/
def industriesList : List String :=
  ["Technology", "Finance", "Healthcare", "Education", "Manufacturing"]

/-- The fixed location lookup list of `searchOrganizations`
(`mcpServer.js` line 235). -/
def locationsList : List String :=
  ["San Francisco, CA", "New York, NY", "Seattle, WA", "Austin, TX", "Boston, MA"]

/-- The synthetic organization record pushed at loop index `i`
(1-based) by `searchOrganizations` (`mcpServer.js` lines 227-236). -/
def mkOrgRecord (query : String) (i : Nat) : JsonVal :=
  .obj [
    ("id", .str ("org-" ++ collapseWs query.toLower ++ "-" ++ toString i)),
    ("localizedName", .str (query ++ " Organization " ++ toString i)),
    ("industry", .str (industriesList.getD (i % 5) "")),
    ("employeeCountRange", .obj [
      ("start", .num ((10 : Int) ^ i)),
      ("end", .num ((10 : Int) ^ (i + 1)))]),
    ("location", .str (locationsList.getD (i % 5) ""))]

/-- The string-to-number step of `ToNumber`: a blank string is `0`,
otherwise the decimal reading, `none` for `NaN`.  (Strings denoting
non-integer numbers do not occur: every numeric value of the program
and of the claims is an integer.) -/
def strToNumber (s : String) : Option Int :=
  if s.trim == "" then some 0 else s.trim.toInt?

/-- `Number(v)` as `Math.min` coerces its argument; `none` models
`NaN`.  An array or object coerces through `ToPrimitive`/`toString`
first and then reads the resulting string as a number (so `[3]` is `3`,
`[]` is `0`, `[1,2]` and plain objects are `NaN`). -/
def toNumber : JsonVal → Option Int
  | .num n => some n
  | .null => some 0
  | .bool b => some (if b then 1 else 0)
  | .str s => strToNumber s
  | .undefined => none
  | .arr xs => strToNumber (jsStr (.arr xs))
  | .obj fs => strToNumber (jsStr (.obj fs))

/-- How many loop iterations `for (i = 1; i <= Math.min(limit, 5); i++)`
performs: `min limit 5` clamped below by `0`, and `0` when the bound is
`NaN` (every comparison with `NaN` is false). -/
def searchCount (limit : JsonVal) : Nat :=
  match toNumber limit with
  | some m => (min m 5).toNat
  | none => 0

/-- The object `searchOrganizations` returns (`mcpServer.js` lines
239-250), parameterized by the records the loop accumulated. -/
def searchPayload (mockResults : List JsonVal) : JsonVal :=
  .obj [
    ("status", .str "demo"),
    ("message", .str "Demo search results. Connect LinkedIn API for real data."),
    ("data", .obj [
      ("elements", .arr mockResults),
      ("paging", .obj [
        ("total", .num (Int.ofNat mockResults.length)),
        ("count", .num (Int.ofNat mockResults.length)),
        ("start", .num 0)])])]

/-- `searchOrganizations(query, limit = 10)` (`mcpServer.js` lines
223-251).  `query.toLowerCase()` sits inside the loop body, so a
non-string `query` throws a `TypeError` (modelled as `Except.error`
carrying the message) only when the loop runs at least once
(`Math.min(limit, 5) >= 1`); with zero iterations the function returns
an empty result even for a non-string query. -/
def searchOrganizations (query limit : JsonVal) : Except String JsonVal :=
  let limit := if isUndefined limit then .num 10 else limit
  match query with
  | .str q => .ok (searchPayload ((List.range (searchCount limit)).map fun j =>
      mkOrgRecord q (j + 1)))
  | .null =>
    if searchCount limit = 0 then .ok (searchPayload [])
    else .error "Cannot read properties of null (reading 'toLowerCase')"
  | .undefined =>
    if searchCount limit = 0 then .ok (searchPayload [])
    else .error "Cannot read properties of undefined (reading 'toLowerCase')"
  | _ =>
    if searchCount limit = 0 then .ok (searchPayload [])
    else .error "query.toLowerCase is not a function"

/-- The fixed two-element mock list of `getOrganizations`
(`mcpServer.js` lines 254-267). -/
def mockOrganizations : List JsonVal :=
  [.obj [
    ("organization", .str "urn:li:organization:demo123"),
    ("role", .str "ADMINISTRATOR"),
    ("state", .str "APPROVED"),
    ("organizationName", .str "Demo Tech Corp")],
   .obj [
    ("organization", .str "urn:li:organization:demo456"),
    ("role", .str "MEMBER"),
    ("state", .str "APPROVED"),
    ("organizationName", .str "Sample Innovations Inc")]]

/-- `getOrganizations(role = null)` (`mcpServer.js` lines 253-280):
with a truthy `role` the mock list is filtered by strict equality
`org.role === role`, otherwise returned whole. -/
def getOrganizations (role : JsonVal) : JsonVal :=
  let role := if isUndefined role then .null else role
  let filteredOrgs :=
    if truthy role then mockOrganizations.filter fun org => jsEq (getField org "role") role
    else mockOrganizations
  .obj [
    ("status", .str "demo"),
    ("message", .str "Demo organization data. Connect LinkedIn API for real data."),
    ("data", .obj [("elements", .arr filteredOrgs)])]

/-- The own property keys of `Object.prototype`, inherited by the
`this.tools` object literal.  Reading one of them yields a truthy value
(a built-in function, or — for the `__proto__` accessor — the prototype
object itself), so these names pass the `!this.tools[toolName]`
guard. -/
def objectPrototypeKeys : List String :=
  ["constructor", "hasOwnProperty", "isPrototypeOf", "propertyIsEnumerable",
   "toLocaleString", "toString", "valueOf", "__proto__",
   "__defineGetter__", "__defineSetter__", "__lookupGetter__", "__lookupSetter__"]

/-- The test `!this.tools[toolName]` of `handleToolsCall`
(`mcpServer.js` line 112), taken positively (is the lookup truthy?).
Property access coerces the index to a string (`ToPropertyKey` =
`ToString` for non-symbols, modelled by `jsStr`) and consults the
literal's four own keys and then the inherited `Object.prototype`
properties, all of which are truthy. -/
def toolsLookupTruthy (toolName : JsonVal) : Bool :=
  toolNames.contains (jsStr toolName) || objectPrototypeKeys.contains (jsStr toolName)

/-- The `switch (toolName)` body inside the `try` of `handleToolsCall`
(`mcpServer.js` lines 126-142): strict-equality (`===`) cases on the
four name strings, with the per-tool call-site argument defaulting; an
`Except.error` is a thrown exception's message.  The `default` branch
throws `'Tool ' + toolName + ' not implemented'` — reached, e.g., for
a name inherited from `Object.prototype`, which passes the registry
guard without matching any case. -/
def executorRun (toolName : JsonVal) (args : JsonVal) (now : Int) (nowISO : String) :
    Except String JsonVal :=
  if jsEq toolName (.str "get_profile") then .ok getProfile
  else if jsEq toolName (.str "create_post") then
    .ok (createPost (getField args "text")
      (if truthy (getField args "visibility") then getField args "visibility"
       else .str "PUBLIC") now nowISO)
  else if jsEq toolName (.str "search_organizations") then
    searchOrganizations (getField args "query")
      (if truthy (getField args "limit") then getField args "limit" else .num 10)
  else if jsEq toolName (.str "get_organizations") then
    .ok (getOrganizations (getField args "role"))
  else .error ("Tool " ++ jsStr toolName ++ " not implemented")

/-- `handleToolsCall(params)` (`mcpServer.js` lines 108-166).
`params.name` on a `null`/`undefined` `params` would throw in JS; every
caller passes an object (`params` is defaulted upstream), so the model
is used on object receivers only. -/
def handleToolsCall (params : JsonVal) (now : Int) (nowISO : String) : MCPResponse :=
  let toolName := getField params "name"
  let args := argsDefault params
  if toolsLookupTruthy toolName = false then
    ⟨"2.0", none,
      some ⟨-32602, "Unknown tool: " ++ jsStr toolName,
        some (.obj [("availableTools",
          .arr ((initializeTools.map Prod.fst).map JsonVal.str))])⟩,
      none⟩
  else
    match executorRun toolName args now nowISO with
    | .ok result => ⟨"2.0", some (contentWrap result), none, none⟩
    | .error e =>
      ⟨"2.0", none,
        some ⟨-32603, "Internal error: " ++ e,
          some (.obj [("tool", toolName), ("arguments", args)])⟩,
        none⟩

end MCPServer

namespace ServiceWorker

/-! The service worker of `src/public/sw.js`: the simplified in-worker
server returned by `createMCPServerInstance` (lines 186-327) and the
protocol dispatcher `handleMCPRequest` (lines 71-129). -/

/-- `handleInitialize(params)` of the in-worker server (`sw.js` lines
188-203); `params` is ignored. -/
def handleInitializeReq : MCPResponse :=
  ⟨"2.0",
    some (.obj [
      ("serverInfo", .obj [
        ("name", .str "linkedin-mcp-server"),
        ("version", .str "1.0.0"),
        ("protocol", .str "MCP 1.0")]),
      ("capabilities", .obj [
        ("tools", .obj [("listChanged", .bool false)]),
        ("resources", .obj [
          ("subscribe", .bool false),
          ("listChanged", .bool false)])])]),
    none, none⟩

/-- The inline tool descriptor array of the in-worker `handleToolsList`
(`sw.js` lines 209-255). -/
def toolsArr : List JsonVal :=
  [.obj [
    ("name", .str "get_profile"),
    ("description", .str "Get LinkedIn profile information for the current user"),
    ("inputSchema", .obj [
      ("type", .str "object"),
      ("properties", .obj []),
      ("required", .arr [])])],
   .obj [
    ("name", .str "create_post"),
    ("description", .str "Create a new LinkedIn post"),
    ("inputSchema", .obj [
      ("type", .str "object"),
      ("properties", .obj [
        ("text", .obj [
          ("type", .str "string"),
          ("description", .str "The text content of the post")]),
        ("visibility", .obj [
          ("type", .str "string"),
          ("description", .str "Post visibility (PUBLIC or CONNECTIONS)"),
          ("enum", .arr [.str "PUBLIC", .str "CONNECTIONS"]),
          ("default", .str "PUBLIC")])]),
      ("required", .arr [.str "text"])])],
   .obj [
    ("name", .str "search_organizations"),
    ("description", .str "Search for LinkedIn organizations"),
    ("inputSchema", .obj [
      ("type", .str "object"),
      ("properties", .obj [
        ("query", .obj [
          ("type", .str "string"),
          ("description", .str "Search query")]),
        ("limit", .obj [
          ("type", .str "number"),
          ("description", .str "Max results"),
          ("default", .num 10)])]),
      ("required", .arr [.str "query"])])],
   .obj [
    ("name", .str "get_organizations"),
    ("description", .str "Get user's organizations"),
    ("inputSchema", .obj [
      ("type", .str "object"),
      ("properties", .obj [
        ("role", .obj [
          ("type", .str "string"),
          ("description", .str "Filter by role")])]),
      ("required", .arr [])])]]

/-- `handleToolsList()` of the in-worker server (`sw.js` lines
205-258). -/
def handleToolsList : MCPResponse :=
  ⟨"2.0", some (.obj [("tools", .arr toolsArr)]), none, none⟩

/-- The `switch (toolName)` of the in-worker `handleToolsCall`
(`sw.js` lines 264-314), producing the structured `result` that is then
serialized.  Note the `default` branch: an unknown tool yields a plain
object with an `error` key, not a JSON-RPC error. -/
def toolResult (toolName args : JsonVal) (now : Int) (nowISO : String) : JsonVal :=
  if jsEq toolName (.str "get_profile") then
    .obj [
      ("status", .str "demo"),
      ("data", .obj [
        ("id", .str "demo-user"),
        ("name", .str "Demo LinkedIn User"),
        ("headline", .str "Professional using MCP Server"),
        ("location", .str "San Francisco, CA")])]
  else if jsEq toolName (.str "create_post") then
    .obj [
      ("status", .str "success"),
      ("message", .str ("Post would be created: \"" ++ jsStr (getField args "text") ++ "\"")),
      ("data", .obj [
        ("visibility",
          if truthy (getField args "visibility") then getField args "visibility"
          else .str "PUBLIC"),
        ("id", .str ("post-" ++ toString now)),
        ("createdAt", .str nowISO)])]
  else if jsEq toolName (.str "search_organizations") then
    .obj [
      ("status", .str "demo"),
      ("data", .obj [
        ("elements", .arr [.obj [
          ("id", .str ("org-" ++ toString now)),
          ("name", .str ("Demo Organization for \"" ++ jsStr (getField args "query") ++ "\"")),
          ("industry", .str "Technology")]])])]
  else if jsEq toolName (.str "get_organizations") then
    .obj [
      ("status", .str "demo"),
      ("data", .obj [
        ("elements", .arr [.obj [
          ("organization", .str "urn:li:organization:demo123"),
          ("role",
            if truthy (getField args "role") then getField args "role"
            else .str "MEMBER"),
          ("state", .str "APPROVED")]])])]
  else .obj [("error", .str ("Unknown tool: " ++ jsStr toolName))]

/-- `handleToolsCall(params)` of the in-worker server (`sw.js` lines
260-325): every branch of the switch, the unknown-tool `default`
included, is wrapped into a success envelope. -/
def handleToolsCall (params : JsonVal) (now : Int) (nowISO : String) : MCPResponse :=
  ⟨"2.0",
    some (contentWrap (toolResult (getField params "name") (argsDefault params) now nowISO)),
    none, none⟩

end ServiceWorker

/-- The `params` defaulting `requestData.params || ` empty-object of
`handleMCPRequest` (`sw.js` line 80). -/
def paramsDefault (p : JsonVal) : JsonVal :=
  if truthy p then p else .obj []

/-- The id echo of `handleMCPRequest` (`sw.js` lines 109-112):
`if (requestId !== undefined) response.id = requestId` — presence is
tested by definedness, not truthiness. -/
def attachId (r : MCPResponse) (requestId : JsonVal) : MCPResponse :=
  if isUndefined requestId then r
  else ⟨r.jsonrpc, r.result, r.error, some requestId⟩

/-- The `switch (method)` of `handleMCPRequest` (`sw.js` lines
86-107), routing to the in-worker server's handlers, with the
method-not-found default. -/
def swRoute (method params : JsonVal) (now : Int) (nowISO : String) : MCPResponse :=
  if jsEq method (.str "initialize") then ServiceWorker.handleInitializeReq
  else if jsEq method (.str "tools/list") then ServiceWorker.handleToolsList
  else if jsEq method (.str "tools/call") then ServiceWorker.handleToolsCall params now nowISO
  else
    ⟨"2.0", none,
      some ⟨-32601, "Method not found: " ++ jsStr method,
        some (.obj [("supportedMethods",
          .arr [.str "initialize", .str "tools/list", .str "tools/call"])])⟩,
      none⟩

/-- The `catch` envelope of `handleMCPRequest` (`sw.js` lines 116-128),
reached when something inside the `try` throws; `e` is the exception's
message. -/
def swCatchEnvelope (e : String) (nowISO : String) : MCPResponse :=
  ⟨"2.0", none,
    some ⟨-32603, "Internal error: " ++ e,
      some (.obj [("timestamp", .str nowISO)])⟩,
    none⟩

/-- `handleMCPRequest` on an already-decoded request body (`sw.js`
lines 71-129).  A `null` body (JSON text `null`) makes
`requestData.method` throw, which the surrounding `catch` turns into a
`-32603` envelope; a decoded body is never `undefined`, and property
access on any other value does not throw.  A body that fails to parse
never reaches this function's logic (transport concern, out of
scope). -/
def handleMCPRequest (requestData : JsonVal) (now : Int) (nowISO : String) : MCPResponse :=
  if isNullish requestData then
    swCatchEnvelope
      ("Cannot read properties of " ++ jsStr requestData ++ " (reading 'method')") nowISO
  else
    attachId
      (swRoute (getField requestData "method") (paramsDefault (getField requestData "params"))
        now nowISO)
      (getField requestData "id")

/-- The envelope carries exactly one of `result` and `error`. -/
def exactlyOne (r : MCPResponse) : Prop :=
  (r.result.isSome = true ∧ r.error = none) ∨ (r.result = none ∧ r.error.isSome = true)

/-- Spec-side extractor: the `data.elements` array of a structured tool
result, as a list (empty if the path is missing). -/
def elementsOf (r : JsonVal) : List JsonVal :=
  match getField (getField r "data") "elements" with
  | .arr xs => xs
  | _ => []

/-! ## Helper lemmas -/

theorem isUndef_eq_true_iff (v : JsonVal) : isUndefined v = true ↔ v = JsonVal.undefined := by
  cases v <;> simp [isUndefined]

theorem getField_of_nullish {v : JsonVal} (h : isNullish v = true) (k : String) :
    getField v k = JsonVal.undefined := by
  cases v <;> simp [isNullish] at h <;> rfl

theorem attachId_result (r : MCPResponse) (v : JsonVal) :
    (attachId r v).result = r.result := by
  unfold attachId; split <;> rfl

theorem attachId_error (r : MCPResponse) (v : JsonVal) :
    (attachId r v).error = r.error := by
  unfold attachId; split <;> rfl

theorem attachId_jsonrpc (r : MCPResponse) (v : JsonVal) :
    (attachId r v).jsonrpc = r.jsonrpc := by
  unfold attachId; split <;> rfl

theorem swRoute_id (m p : JsonVal) (now : Int) (iso : String) :
    (swRoute m p now iso).id = none := by
  unfold swRoute
  split
  · rfl
  split
  · rfl
  split <;> rfl

theorem swRoute_wellformed (m p : JsonVal) (now : Int) (iso : String) :
    (swRoute m p now iso).jsonrpc = "2.0" ∧ exactlyOne (swRoute m p now iso) := by
  unfold swRoute
  split
  · exact ⟨rfl, Or.inl ⟨rfl, rfl⟩⟩
  split
  · exact ⟨rfl, Or.inl ⟨rfl, rfl⟩⟩
  split
  · exact ⟨rfl, Or.inl ⟨rfl, rfl⟩⟩
  · exact ⟨rfl, Or.inr ⟨rfl, rfl⟩⟩

theorem jsEq_str_of_ne {m : JsonVal} {c : String}
    (h : ∀ s : String, m = JsonVal.str s → s ≠ c) : jsEq m (.str c) = false := by
  cases m with
  | str s => simpa [jsEq] using h s rfl
  | null => rfl
  | undefined => rfl
  | bool b => rfl
  | num n => rfl
  | arr xs => rfl
  | obj fs => rfl

theorem not_nullish_of_getField_str {req : JsonVal} {k s : String}
    (h : getField req k = JsonVal.str s) : isNullish req = false := by
  cases req with
  | null => exact absurd h (by simp [getField])
  | undefined => exact absurd h (by simp [getField])
  | bool b => rfl
  | num n => rfl
  | str t => rfl
  | arr xs => rfl
  | obj fs => rfl

theorem exactlyOne_attachId (r : MCPResponse) (v : JsonVal) :
    exactlyOne (attachId r v) ↔ exactlyOne r := by
  unfold exactlyOne
  rw [attachId_result, attachId_error]

theorem handleMCPRequest_wf (req : JsonVal) (now : Int) (iso : String) :
    (handleMCPRequest req now iso).jsonrpc = "2.0" ∧
      exactlyOne (handleMCPRequest req now iso) := by
  unfold handleMCPRequest
  split
  · exact ⟨rfl, Or.inr ⟨rfl, rfl⟩⟩
  · refine ⟨?_, ?_⟩
    · rw [attachId_jsonrpc]
      exact (swRoute_wellformed _ _ _ _).1
    · rw [exactlyOne_attachId]
      exact (swRoute_wellformed _ _ _ _).2

theorem handleToolsCall_wf (params : JsonVal) (now : Int) (iso : String) :
    (MCPServer.handleToolsCall params now iso).jsonrpc = "2.0" ∧
      exactlyOne (MCPServer.handleToolsCall params now iso) := by
  cases hg : MCPServer.toolsLookupTruthy (getField params "name") with
  | false => simp [MCPServer.handleToolsCall, hg, exactlyOne]
  | true =>
    rcases hex : MCPServer.executorRun (getField params "name") (argsDefault params)
        now iso with e | r
    · simp [MCPServer.handleToolsCall, hg, hex, exactlyOne]
    · simp [MCPServer.handleToolsCall, hg, hex, exactlyOne]

/-! ## Claims -/

/-- C9 (confirmed): every response envelope produced by the dispatcher
`handleMCPRequest` — and by each `MCPServer` handler — has
`jsonrpc = "2.0"` and contains exactly one of `result` and `error`,
never both and never neither. -/
theorem envelope_wellformed :
    (∀ (req : JsonVal) (now : Int) (iso : String),
      (handleMCPRequest req now iso).jsonrpc = "2.0" ∧
        exactlyOne (handleMCPRequest req now iso)) ∧
    (∀ (params : JsonVal) (now : Int) (iso : String),
      (MCPServer.handleToolsCall params now iso).jsonrpc = "2.0" ∧
        exactlyOne (MCPServer.handleToolsCall params now iso)) ∧
    (MCPServer.handleToolsList.jsonrpc = "2.0" ∧ exactlyOne MCPServer.handleToolsList) ∧
    (MCPServer.handleInitializeReq.jsonrpc = "2.0" ∧
      exactlyOne MCPServer.handleInitializeReq) :=
  ⟨handleMCPRequest_wf, handleToolsCall_wf,
    ⟨rfl, Or.inl ⟨rfl, rfl⟩⟩, ⟨rfl, Or.inl ⟨rfl, rfl⟩⟩⟩

/-- C6 (confirmed): the dispatcher copies a present request `id`
verbatim onto the response — presence being definedness, so falsy ids
such as `0` or `""` are still echoed — and omits the response `id`
exactly when the request had none. -/
theorem id_echo_definedness (req : JsonVal) (now : Int) (iso : String) :
    (getField req "id" ≠ JsonVal.undefined →
      (handleMCPRequest req now iso).id = some (getField req "id")) ∧
    (getField req "id" = JsonVal.undefined →
      (handleMCPRequest req now iso).id = none) := by
  constructor
  · intro h
    unfold handleMCPRequest
    split
    · rename_i hn
      exact absurd (getField_of_nullish hn "id") h
    · unfold attachId
      split
      · rename_i hu
        exact absurd ((isUndef_eq_true_iff _).1 hu) h
      · rfl
  · intro h
    unfold handleMCPRequest
    split
    · rfl
    · unfold attachId
      split
      · exact swRoute_id _ _ _ _
      · rename_i hu
        exact absurd ((isUndef_eq_true_iff _).2 h) hu

/-- Witness for C6: a request with the falsy id `0` gets `id = 0` on
the response, not an omitted id. -/
theorem id_echo_definedness_witness :
    (handleMCPRequest (.obj [("method", .str "tools/list"), ("id", .num 0)]) 0 "T").id =
      some (.num 0) := by
  exact (id_echo_definedness (.obj [("method", .str "tools/list"), ("id", .num 0)]) 0 "T").1
    (fun hh => JsonVal.noConfusion hh)

/-- C7 (confirmed): a request whose `method` is none of `initialize`,
`tools/list`, `tools/call` gets a `-32601` error whose message is
`"Method not found: "` followed by the method, with
`data.supportedMethods` listing the three supported methods.  (The
hypothesis `isNullish req = false` scopes the statement to decoded
request values on which property access does not throw.) -/
theorem method_not_found (req : JsonVal) (now : Int) (iso : String)
    (hobj : isNullish req = false)
    (hm : ∀ s : String, getField req "method" = JsonVal.str s →
      s ∉ (["initialize", "tools/list", "tools/call"] : List String)) :
    (handleMCPRequest req now iso).error =
      some ⟨-32601, "Method not found: " ++ jsStr (getField req "method"),
        some (.obj [("supportedMethods",
          .arr [.str "initialize", .str "tools/list", .str "tools/call"])])⟩ := by
  have h1 : jsEq (getField req "method") (.str "initialize") = false :=
    jsEq_str_of_ne fun s hs hc => hm s hs (by simp [hc])
  have h2 : jsEq (getField req "method") (.str "tools/list") = false :=
    jsEq_str_of_ne fun s hs hc => hm s hs (by simp [hc])
  have h3 : jsEq (getField req "method") (.str "tools/call") = false :=
    jsEq_str_of_ne fun s hs hc => hm s hs (by simp [hc])
  have hne : ¬ (isNullish req = true) := by simp [hobj]
  unfold handleMCPRequest
  rw [if_neg hne, attachId_error]
  unfold swRoute
  rw [if_neg (by simp [h1]), if_neg (by simp [h2]), if_neg (by simp [h3])]

/-- Witness for C7: the unknown method `resources/list` yields the
`-32601` envelope with the literal method string in the message. -/
theorem method_not_found_witness :
    (handleMCPRequest (.obj [("method", .str "resources/list"), ("id", .num 5)]) 0 "T").error =
      some ⟨-32601, "Method not found: resources/list",
        some (.obj [("supportedMethods",
          .arr [.str "initialize", .str "tools/list", .str "tools/call"])])⟩ := by
  have h := method_not_found (.obj [("method", .str "resources/list"), ("id", .num 5)]) 0 "T"
    rfl (by intro s hs; simp [getField] at hs; subst hs; decide)
  simpa [getField, jsStr] using h

/-- C5 (confirmed): a `tools/list` request — whatever its `params` —
returns `result.tools` as the ordered descriptor sequence of the
registry, whose name sequence is exactly
`[get_profile, create_post, search_organizations, get_organizations]`;
the same name sequence comes from the `MCPServer` class's registry in
insertion order. -/
theorem tools_list_names (req : JsonVal) (now : Int) (iso : String)
    (hm : getField req "method" = JsonVal.str "tools/list") :
    (handleMCPRequest req now iso).result =
      some (.obj [("tools", .arr ServiceWorker.toolsArr)]) ∧
    ServiceWorker.toolsArr.map (fun t => getField t "name") =
      MCPServer.toolNames.map JsonVal.str ∧
    MCPServer.handleToolsList.result =
      some (.obj [("tools", .arr (MCPServer.initializeTools.map Prod.snd))]) ∧
    (MCPServer.initializeTools.map Prod.snd).map (fun t => getField t "name") =
      MCPServer.toolNames.map JsonVal.str := by
  refine ⟨?_, rfl, rfl, rfl⟩
  have hne : ¬ (isNullish req = true) := by
    simp [not_nullish_of_getField_str hm]
  unfold handleMCPRequest
  rw [if_neg hne, attachId_result]
  unfold swRoute
  rw [hm]
  rfl

/-- Witness for C5: a concrete `tools/list` request with junk params. -/
theorem tools_list_names_witness :
    (handleMCPRequest (.obj [("method", .str "tools/list"),
        ("params", .obj [("junk", .num 42)]), ("id", .str "a")]) 0 "T").result =
      some (.obj [("tools", .arr ServiceWorker.toolsArr)]) := by
  exact (tools_list_names (.obj [("method", .str "tools/list"),
    ("params", .obj [("junk", .num 42)]), ("id", .str "a")]) 0 "T" rfl).1

/-- C1 (corrected) counterexample: dispatching `tools/call` for the
unregistered tool name `bogus_tool` yields a SUCCESS envelope — no
`error` member at all, hence no `-32602`: the service worker's
simplified tools/call handler wraps an unknown-tool note into
`result.content` instead of rejecting the call. -/
theorem unknown_tool_dispatch_counterexample :
    (handleMCPRequest (.obj [("method", .str "tools/call"),
        ("params", .obj [("name", .str "bogus_tool")]), ("id", .num 1)]) 0 "T").error =
      none ∧
    (handleMCPRequest (.obj [("method", .str "tools/call"),
        ("params", .obj [("name", .str "bogus_tool")]), ("id", .num 1)]) 0 "T").result =
      some (contentWrap (.obj [("error", .str "Unknown tool: bogus_tool")])) :=
  ⟨rfl, rfl⟩

/-- C1 (amended): the `MCPServer` class's `handleToolsCall` rejects a
tools/call whose `params.name` has a falsy registry lookup — its
string-coerced key is neither one of the four registered names nor an
inherited `Object.prototype` property name — with a `-32602` error
listing the four registered names in `data.availableTools`; a string
name inherited from `Object.prototype` (`constructor`, `toString`, …)
passes the truthiness guard, falls to the switch `default`, which
throws, and so yields `-32603` `Tool <name> not implemented`; every
non-registered string name reaching the switch hits that default throw
rather than an executor, so the names routed to an executor are exactly
the four `tools/list` registry names; the service worker's simplified
tools/call handler, by contrast, never produces an error envelope. -/
theorem unknown_tool_error_amended :
    (∀ (params : JsonVal) (now : Int) (iso : String), isNullish params = false →
      MCPServer.toolsLookupTruthy (getField params "name") = false →
      MCPServer.handleToolsCall params now iso =
        ⟨"2.0", none,
          some ⟨-32602, "Unknown tool: " ++ jsStr (getField params "name"),
            some (.obj [("availableTools",
              .arr (MCPServer.toolNames.map JsonVal.str))])⟩,
          none⟩) ∧
    (∀ s : String, MCPServer.toolsLookupTruthy (.str s) = true ↔
      (s ∈ MCPServer.toolNames ∨ s ∈ MCPServer.objectPrototypeKeys)) ∧
    (∀ (s : String) (now : Int) (iso : String),
      s ∉ MCPServer.toolNames → s ∈ MCPServer.objectPrototypeKeys →
      MCPServer.handleToolsCall (.obj [("name", .str s)]) now iso =
        ⟨"2.0", none,
          some ⟨-32603, "Internal error: " ++ ("Tool " ++ s ++ " not implemented"),
            some (.obj [("tool", .str s), ("arguments", .obj [])])⟩,
          none⟩) ∧
    (∀ (s : String) (args : JsonVal) (now : Int) (iso : String),
      s ∉ MCPServer.toolNames →
      MCPServer.executorRun (.str s) args now iso =
        .error ("Tool " ++ s ++ " not implemented")) ∧
    ((MCPServer.initializeTools.map Prod.snd).map (fun t => getField t "name") =
      MCPServer.toolNames.map JsonVal.str) ∧
    (∀ (params : JsonVal) (now : Int) (iso : String),
      (ServiceWorker.handleToolsCall params now iso).error = none) := by
  have h2 : ∀ s : String, MCPServer.toolsLookupTruthy (.str s) = true ↔
      (s ∈ MCPServer.toolNames ∨ s ∈ MCPServer.objectPrototypeKeys) := by
    intro s
    simp [MCPServer.toolsLookupTruthy, jsStr]
  have h4 : ∀ (s : String) (args : JsonVal) (now : Int) (iso : String),
      s ∉ MCPServer.toolNames →
      MCPServer.executorRun (.str s) args now iso =
        .error ("Tool " ++ s ++ " not implemented") := by
    intro s args now iso hn
    have hs1 : s ≠ "get_profile" := fun h => hn (by rw [h]; decide)
    have hs2 : s ≠ "create_post" := fun h => hn (by rw [h]; decide)
    have hs3 : s ≠ "search_organizations" := fun h => hn (by rw [h]; decide)
    have hs4 : s ≠ "get_organizations" := fun h => hn (by rw [h]; decide)
    simp [MCPServer.executorRun, jsEq, jsStr, hs1, hs2, hs3, hs4]
  refine ⟨?_, h2, ?_, h4, rfl, fun params now iso => rfl⟩
  · intro params now iso hp hg
    simp only [MCPServer.handleToolsCall, hg, reduceIte]
    rfl
  · intro s now iso hn hp
    have hg : MCPServer.toolsLookupTruthy (.str s) = true := (h2 s).2 (Or.inr hp)
    have he := h4 s (JsonVal.obj []) now iso hn
    have e1 : getField (JsonVal.obj [("name", JsonVal.str s)]) "name" = JsonVal.str s := rfl
    have e2 : argsDefault (JsonVal.obj [("name", JsonVal.str s)]) = JsonVal.obj [] := rfl
    simp only [MCPServer.handleToolsCall, e1, e2, hg, he]
    rfl

/-- Witness for C1 (amended): the unregistered, non-prototype name
`bogus_tool` through the MCPServer class gets the `-32602` envelope. -/
theorem unknown_tool_error_amended_witness :
    MCPServer.handleToolsCall (.obj [("name", .str "bogus_tool")]) 0 "T" =
      ⟨"2.0", none,
        some ⟨-32602, "Unknown tool: bogus_tool",
          some (.obj [("availableTools", .arr [.str "get_profile", .str "create_post",
            .str "search_organizations", .str "get_organizations"])])⟩,
        none⟩ := by
  have h := unknown_tool_error_amended.1 (.obj [("name", .str "bogus_tool")]) 0 "T" rfl rfl
  exact h

/-- C2 (corrected) counterexample: dispatching `tools/call` for
`search_organizations` with query `"Acme"` and limit `100` yields ONE
result element, not five: the service worker's simplified handler
returns a single demo record and ignores `limit` entirely. -/
theorem search_limit_dispatch_counterexample :
    (handleMCPRequest (.obj [
        ("method", .str "tools/call"),
        ("params", .obj [("name", .str "search_organizations"),
          ("arguments", .obj [("query", .str "Acme"), ("limit", .num 100)])]),
        ("id", .num 2)]) 0 "T").result =
      some (contentWrap (.obj [
        ("status", .str "demo"),
        ("data", .obj [
          ("elements", .arr [.obj [
            ("id", .str "org-0"),
            ("name", .str "Demo Organization for \"Acme\""),
            ("industry", .str "Technology")]])])])) ∧
    (elementsOf (.obj [
        ("status", .str "demo"),
        ("data", .obj [
          ("elements", .arr [.obj [
            ("id", .str "org-0"),
            ("name", .str "Demo Organization for \"Acme\""),
            ("industry", .str "Technology")]])])])).length = 1 :=
  ⟨rfl, rfl⟩

/-- C2 (amended): the `MCPServer` executor `searchOrganizations`
returns exactly `min(limit, 5)` synthetic records with ids/names
derived from the query and 1-based index and industry/location from the
fixed five-element lists at index mod 5; through the `MCPServer`
class's `handleToolsCall`, query `"Acme"` with limit `100` yields
exactly five elements, each of whose names starts with `"Acme"`. -/
theorem search_organizations_results (q : String) (n : Int) (now : Int) (iso : String) :
    (∃ r, MCPServer.searchOrganizations (.str q) (.num n) = .ok r ∧
      elementsOf r =
        (List.range (min n 5).toNat).map (fun j => MCPServer.mkOrgRecord q (j + 1)) ∧
      (elementsOf r).length = (min n 5).toNat) ∧
    (∀ i : Nat,
      getField (MCPServer.mkOrgRecord q i) "id" =
        .str ("org-" ++ collapseWs q.toLower ++ "-" ++ toString i) ∧
      getField (MCPServer.mkOrgRecord q i) "localizedName" =
        .str (q ++ " Organization " ++ toString i) ∧
      getField (MCPServer.mkOrgRecord q i) "industry" =
        .str (MCPServer.industriesList.getD (i % 5) "") ∧
      getField (MCPServer.mkOrgRecord q i) "location" =
        .str (MCPServer.locationsList.getD (i % 5) "")) ∧
    (∃ r, MCPServer.executorRun (.str "search_organizations")
        (.obj [("query", .str "Acme"), ("limit", .num 100)]) now iso = .ok r ∧
      MCPServer.handleToolsCall (.obj [("name", .str "search_organizations"),
          ("arguments", .obj [("query", .str "Acme"), ("limit", .num 100)])]) now iso =
        ⟨"2.0", some (contentWrap r), none, none⟩ ∧
      (elementsOf r).length = 5 ∧
      (elementsOf r).map (fun o => getField o "localizedName") =
        [.str "Acme Organization 1", .str "Acme Organization 2",
         .str "Acme Organization 3", .str "Acme Organization 4",
         .str "Acme Organization 5"]) := by
  refine ⟨⟨_, rfl, rfl, ?_⟩, fun i => ⟨rfl, rfl, rfl, rfl⟩, ⟨_, rfl, ?_, ?_, ?_⟩⟩
  · show ((List.range (min n 5).toNat).map fun j => MCPServer.mkOrgRecord q (j + 1)).length =
      (min n 5).toNat
    simp
  · rfl
  · rfl
  · rfl

/-- C3 (confirmed): the dispatcher never throws — every request gets a
returned envelope holding a `result` or an `error` — and a registered
tool whose executor raises is answered with a `-32603` envelope whose
message embeds the exception's description and whose `data` carries the
tool name and the arguments that were passed. -/
theorem executor_failure_error_envelope :
    (∀ (req : JsonVal) (now : Int) (iso : String),
      (handleMCPRequest req now iso).result.isSome = true ∨
        (handleMCPRequest req now iso).error.isSome = true) ∧
    (∀ (params : JsonVal) (now : Int) (iso : String) (e : String),
      MCPServer.toolsLookupTruthy (getField params "name") = true →
      MCPServer.executorRun (getField params "name") (argsDefault params) now iso =
        .error e →
      MCPServer.handleToolsCall params now iso =
        ⟨"2.0", none,
          some ⟨-32603, "Internal error: " ++ e,
            some (.obj [("tool", getField params "name"),
              ("arguments", argsDefault params)])⟩,
          none⟩) := by
  constructor
  · intro req now iso
    rcases (handleMCPRequest_wf req now iso).2 with ⟨h, _⟩ | ⟨_, h⟩
    · exact Or.inl h
    · exact Or.inr h
  · intro params now iso e hg hex
    simp only [MCPServer.handleToolsCall, hg, hex, reduceIte]
    rfl

/-- Witness for C3: calling `search_organizations` with no arguments
makes `query.toLowerCase()` throw inside the executor, and the MCPServer
class converts it into the `-32603` envelope with the tool name and the
(empty) arguments. -/
theorem executor_failure_error_envelope_witness :
    MCPServer.handleToolsCall (.obj [("name", .str "search_organizations")]) 0 "T" =
      ⟨"2.0", none,
        some ⟨-32603,
          "Internal error: Cannot read properties of undefined (reading 'toLowerCase')",
          some (.obj [("tool", .str "search_organizations"), ("arguments", .obj [])])⟩,
        none⟩ := by
  have h := executor_failure_error_envelope.2 (.obj [("name", .str "search_organizations")])
    0 "T" "Cannot read properties of undefined (reading 'toLowerCase')" rfl rfl
  exact h

/-- C4 (confirmed): every successful tools/call answer wraps the
executor's structured result as a one-element `result.content` array
holding a single `type: "text"` item whose `text` is the two-space
pretty-printed JSON of that result — the dispatcher never returns the
structured output directly; the service worker's handler produces the
same wrapping unconditionally. -/
theorem success_content_wrapping :
    (∀ (params : JsonVal) (now : Int) (iso : String) (res : JsonVal),
      (MCPServer.handleToolsCall params now iso).result = some res →
      ∃ v, MCPServer.toolsLookupTruthy (getField params "name") = true ∧
        MCPServer.executorRun (getField params "name") (argsDefault params) now iso =
          .ok v ∧
        res = .obj [("content", .arr [.obj [("type", .str "text"),
          ("text", .str (jsonStringify2 v))]])]) ∧
    (∀ (params : JsonVal) (now : Int) (iso : String),
      (ServiceWorker.handleToolsCall params now iso).result =
        some (.obj [("content", .arr [.obj [("type", .str "text"),
          ("text", .str (jsonStringify2 (ServiceWorker.toolResult
            (getField params "name") (argsDefault params) now iso)))]])])) := by
  constructor
  · intro params now iso res hres
    cases hg : MCPServer.toolsLookupTruthy (getField params "name") with
    | false =>
      simp only [MCPServer.handleToolsCall, hg, reduceIte] at hres
      exact absurd hres (by simp)
    | true =>
      rcases hex : MCPServer.executorRun (getField params "name") (argsDefault params)
          now iso with e | v
      · have hres0 : (MCPServer.handleToolsCall params now iso).result = none := by
          simp only [MCPServer.handleToolsCall, hg, hex]
          rfl
        rw [hres0] at hres
        exact absurd hres (by simp)
      · have hres1 : (MCPServer.handleToolsCall params now iso).result =
            some (contentWrap v) := by
          simp only [MCPServer.handleToolsCall, hg, hex]
          rfl
        rw [hres1] at hres
        simp only [Option.some.injEq] at hres
        exact ⟨v, rfl, rfl, hres.symm⟩
  · intro params now iso
    rfl

/-- Witness for C4: the successful `get_profile` call through the
MCPServer class wraps the mock profile as serialized text content. -/
theorem success_content_wrapping_witness :
    ∃ v, MCPServer.toolsLookupTruthy
        (getField (JsonVal.obj [("name", JsonVal.str "get_profile")]) "name") = true ∧
      MCPServer.executorRun (getField (JsonVal.obj [("name", JsonVal.str "get_profile")]) "name")
        (argsDefault (JsonVal.obj [("name", JsonVal.str "get_profile")])) 0 "T" = .ok v ∧
      contentWrap MCPServer.getProfile =
        JsonVal.obj [("content", .arr [.obj [("type", .str "text"),
          ("text", .str (jsonStringify2 v))]])] :=
  success_content_wrapping.1 (JsonVal.obj [("name", JsonVal.str "get_profile")]) 0 "T"
    (contentWrap MCPServer.getProfile) rfl

/-- C8 (corrected) counterexample: `get_organizations` with the role
argument `""` (a role string) returns BOTH fixed entries, although
neither entry's `role` field is string-equal to `""`: the empty string
is falsy, so the filter is skipped entirely. -/
theorem get_organizations_empty_role_counterexample :
    (elementsOf (MCPServer.getOrganizations (.str ""))).length = 2 ∧
    (MCPServer.mockOrganizations.filter fun org =>
      jsEq (getField org "role") (.str "")).length = 0 :=
  ⟨rfl, rfl⟩

/-- C8 (amended): `getOrganizations` returns the fixed two-element mock
list when `role` is absent or null; for a NON-EMPTY role string it
returns exactly the entries whose `role` field is string-equal to the
request (exact match, no case folding) — in particular `"MEMBER"`
yields exactly the one MEMBER entry, also through `handleToolsCall` —
while the empty-string role, being falsy, skips the filter. -/
theorem get_organizations_filter_amended :
    (elementsOf (MCPServer.getOrganizations .undefined) = MCPServer.mockOrganizations) ∧
    (elementsOf (MCPServer.getOrganizations .null) = MCPServer.mockOrganizations) ∧
    (∀ s : String, s ≠ "" →
      elementsOf (MCPServer.getOrganizations (.str s)) =
        MCPServer.mockOrganizations.filter fun org =>
          jsEq (getField org "role") (.str s)) ∧
    (elementsOf (MCPServer.getOrganizations (.str "MEMBER")) =
      [.obj [("organization", .str "urn:li:organization:demo456"),
        ("role", .str "MEMBER"), ("state", .str "APPROVED"),
        ("organizationName", .str "Sample Innovations Inc")]]) ∧
    (∀ (now : Int) (iso : String),
      MCPServer.handleToolsCall (.obj [("name", .str "get_organizations"),
          ("arguments", .obj [("role", .str "MEMBER")])]) now iso =
        ⟨"2.0", some (contentWrap (MCPServer.getOrganizations (.str "MEMBER"))),
          none, none⟩) := by
  refine ⟨rfl, rfl, ?_, rfl, fun now iso => rfl⟩
  intro s hs
  have ht : truthy (JsonVal.str s) = true := by simp [truthy, hs]
  simp [MCPServer.getOrganizations, isUndefined, ht, elementsOf, getField, List.lookup]

/-- Witness for C8 (amended): the non-empty role `"ADMINISTRATOR"`
filters the mock list by exact string equality. -/
theorem get_organizations_filter_amended_witness :
    elementsOf (MCPServer.getOrganizations (.str "ADMINISTRATOR")) =
      MCPServer.mockOrganizations.filter (fun org =>
        jsEq (getField org "role") (.str "ADMINISTRATOR")) := by
  exact get_organizations_filter_amended.2.2.1 "ADMINISTRATOR" (by decide)

/-- C10 (confirmed): optional arguments default by truthiness, not
definedness — `arguments: null` behaves like absent arguments,
`visibility: ""` like absent visibility (so `"PUBLIC"`), `limit: 0`
like absent limit (so `10`, hence five records), and `role: ""` like
absent role (no filter, both fixed entries). -/
theorem truthiness_defaulting :
    (∀ (name : JsonVal) (now : Int) (iso : String),
      MCPServer.handleToolsCall (.obj [("name", name), ("arguments", .null)]) now iso =
        MCPServer.handleToolsCall (.obj [("name", name)]) now iso) ∧
    (∀ (t : JsonVal) (now : Int) (iso : String),
      MCPServer.executorRun (.str "create_post")
          (.obj [("text", t), ("visibility", .str "")]) now iso =
        MCPServer.executorRun (.str "create_post") (.obj [("text", t)]) now iso ∧
      ∃ r, MCPServer.executorRun (.str "create_post")
          (.obj [("text", t), ("visibility", .str "")]) now iso = .ok r ∧
        getField (getField r "data") "visibility" = .str "PUBLIC") ∧
    (∀ (q : String) (now : Int) (iso : String),
      MCPServer.executorRun (.str "search_organizations")
          (.obj [("query", .str q), ("limit", .num 0)]) now iso =
        MCPServer.executorRun (.str "search_organizations") (.obj [("query", .str q)]) now iso ∧
      ∃ r, MCPServer.executorRun (.str "search_organizations")
          (.obj [("query", .str q), ("limit", .num 0)]) now iso = .ok r ∧
        (elementsOf r).length = 5) ∧
    (∃ r, MCPServer.executorRun (.str "get_organizations")
        (.obj [("role", .str "")]) 0 "T" = .ok r ∧
      elementsOf r = MCPServer.mockOrganizations ∧ (elementsOf r).length = 2) := by
  refine ⟨fun name now iso => rfl,
    fun t now iso => ⟨rfl, _, rfl, rfl⟩,
    fun q now iso => ⟨rfl, _, rfl, ?_⟩,
    _, rfl, rfl, rfl⟩
  rfl

end LinkedInMCP
